import Mathlib

/-!
Verification development for the LDA-Shakira data layer (`src/app.py`).

The file shallowly embeds the data-integration core of the application:
the song-title normalizer `normalizar`, the encoding-fallback CSV reader
`leer_csv_seguro`, the schema-checking and type-coercing loader
`load_data`, and the query/aggregation expressions built on pandas
(`palabras`, `canciones_top`, `df_topic_year`, `df_all`).

Modelling conventions:
* Python floats are modelled as exact rationals (`Rat`); `NaN`/missing
  numeric cells are modelled as `Option.none`.
* Python strings handled by `unicodedata` are modelled as lists of code
  points (`List Nat`); the `unicodedata` tables (`NFKD` decomposition,
  combining classes) and `str.lower`/`str.strip` are modelled by finite
  tables that agree with the real Unicode data on every code point used
  in this development and are the identity elsewhere.
* pandas single-column `sort_values` is modelled through its `nargsort`
  routine: NaN keys are placed last, a descending sort reverses the key
  array, arg-sorts it ascending, and reverses the resulting indexer.
  The underlying `numpy.argsort(kind="quicksort")` is modelled as a
  stable sort.  Real numpy does not specify the tie order of its default
  quicksort (it is stable only for short arrays on classic introsort
  builds), which is why no theorem below relies on tie order of a
  single-column sort on more than 16 rows.
* The multi-column `sort_values(["year","dominant_prob"])` goes through
  pandas `lexsort_indexer`/`np.lexsort`, which is a stable mergesort on
  category codes with NaN mapped to the largest code (`na_position =
  "last"`) and descending columns realised by inverting codes; this is
  modelled as a stable sort by the corresponding lexicographic order.
-/

namespace LDA

instance {ε α : Type _} [DecidableEq ε] [DecidableEq α] : DecidableEq (Except ε α) := fun a b =>
  match a, b with
  | .ok x, .ok y =>
      if h : x = y then .isTrue (by rw [h]) else .isFalse (fun c => h (Except.ok.inj c))
  | .ok _, .error _ => .isFalse (fun c => Except.noConfusion c)
  | .error _, .ok _ => .isFalse (fun c => Except.noConfusion c)
  | .error x, .error y =>
      if h : x = y then .isTrue (by rw [h]) else .isFalse (fun c => h (Except.error.inj c))

/-! ### Python string model and `normalizar` (src/app.py lines 15-20) -/

/-- Python `str.isspace` code points (the set stripped by `str.strip()`). -/
def isPySpace (c : Nat) : Bool :=
  decide ((9 ≤ c ∧ c ≤ 13) ∨ (28 ≤ c ∧ c ≤ 32) ∨ c = 0x85 ∨ c = 0xA0 ∨ c = 0x1680 ∨
    (0x2000 ≤ c ∧ c ≤ 0x200A) ∨ c = 0x2028 ∨ c = 0x2029 ∨ c = 0x202F ∨ c = 0x205F ∨ c = 0x3000)

/-- Python `str.lower`, per code point (a code point may lower to several).
Finite table: ASCII `A`-`Z`, and `É` (U+00C9); identity on everything else
used in this development (`℉` and `°` have no lowercase mapping). -/
def pyLowerChar (c : Nat) : List Nat :=
  if 65 ≤ c ∧ c ≤ 90 then [c + 32]
  else if c = 0xC9 then [0xE9]
  else [c]

/-- Unicode NFKD decomposition of one code point, per `UnicodeData.txt`:
`℉` (U+2109) decomposes to `°F` (00B0 0046), `é` (U+00E9) to `e` plus
combining acute (0065 0301), `É` (U+00C9) to 0045 0301, and NBSP (U+00A0)
to SPACE (0020); identity on the other code points used here.  Canonical
reordering of combining marks is omitted: every mark produced by this
table is already in canonical position. -/
def nfkdChar (c : Nat) : List Nat :=
  if c = 0x2109 then [0xB0, 0x46]
  else if c = 0xE9 then [0x65, 0x301]
  else if c = 0xC9 then [0x45, 0x301]
  else if c = 0xA0 then [0x20]
  else [c]

/-- Unicode combining class, per `UnicodeData.txt`: 230 for combining
acute (U+0301), 0 for the other code points used here. -/
def combiningCls (c : Nat) : Nat :=
  if c = 0x301 then 230 else 0

/-- Python `str.strip()`: drop leading and trailing whitespace. -/
def pyStrip (s : List Nat) : List Nat :=
  (((s.dropWhile isPySpace).reverse).dropWhile isPySpace).reverse

/-- ASCII lowercasing: the restriction of `pyLowerChar` to code points
below 128 (where lowering is single-valued). -/
def lowAsc (c : Nat) : Nat :=
  if 65 ≤ c ∧ c ≤ 90 then c + 32 else c

/-- A Python value reaching `normalizar` (titles are strings, but the
function is applied defensively to whatever a cell holds). -/
inductive PyVal where
  | str (s : List Nat)
  | int (n : Int)
  | float (q : Rat)
  | pyNone
deriving DecidableEq

/-- `normalizar` (src/app.py lines 15-20): on a string, strip, lowercase,
NFKD-decompose and drop combining marks; any non-string value is returned
unchanged. -/
def normalizar (v : PyVal) : PyVal :=
  match v with
  | .str s =>
      .str ((((pyStrip s).flatMap pyLowerChar).flatMap nfkdChar).filter
        (fun c => decide (combiningCls c = 0)))
  | w => w

/-! ### `leer_csv_seguro` (src/app.py lines 22-30)

The external file is abstracted by the outcome each encoding attempt
would produce (`pd.read_csv(path, encoding=e)`): a dataframe, a
`UnicodeDecodeError`, or some other exception.  The Python source is a
single `try` with two `except` clauses, so an exception raised inside
the first handler propagates. -/

inductive Enc where
  | utf8
  | latin1
  | cp1252
deriving DecidableEq

inductive ReadErr where
  | unicodeDecode
  | other
deriving DecidableEq

/-- `leer_csv_seguro`: try UTF-8; on `UnicodeDecodeError` return the
Latin-1 attempt's outcome; on any other exception return the cp1252
attempt's outcome. -/
def leer_csv_seguro {Df : Type} (attempt : Enc → Except ReadErr Df) : Except ReadErr Df :=
  match attempt .utf8 with
  | .ok df => .ok df
  | .error .unicodeDecode => attempt .latin1
  | .error .other => attempt .cp1252

/-! ### `load_data` (src/app.py lines 32-76): schema checks and coercion -/

/-- A raw cell as delivered by `read_csv`: a number, a string, or empty
(`NaN`). -/
inductive Cell where
  | num (q : Rat)
  | text (s : String)
  | empty
deriving DecidableEq

/-- Decimal digit test helper. -/
def allDigits (l : List Char) : Bool :=
  l.all Char.isDigit

/-- Numeric value of a digit string. -/
def natOfDigits (l : List Char) : Nat :=
  l.foldl (fun a c => 10 * a + (c.toNat - 48)) 0

/-- Parse an unsigned decimal literal (digits with an optional single
point; exponent forms are not used by the datasets modelled here). -/
def parseUnsigned (l : List Char) : Option Rat :=
  match l.splitOn '.' with
  | [ip] =>
      if ip ≠ [] ∧ allDigits ip then some ((natOfDigits ip : Rat)) else Option.none
  | [ip, fp] =>
      if (ip ≠ [] ∨ fp ≠ []) ∧ allDigits ip ∧ allDigits fp then
        some ((natOfDigits ip : Rat) + (natOfDigits fp : Rat) / ((10 : Rat) ^ fp.length))
      else Option.none
  | _ => Option.none

/-- Parse a signed decimal literal, as `pd.to_numeric` does for strings. -/
def parseSigned (s : String) : Option Rat :=
  match s.data with
  | '-' :: rest => (parseUnsigned rest).map (fun q => -q)
  | '+' :: rest => parseUnsigned rest
  | l => parseUnsigned l

/-- `pd.to_numeric(cell, errors="coerce")`: numbers pass through, strings
are parsed, anything unparsable (and empty cells) becomes missing. -/
def toNumeric (c : Cell) : Option Rat :=
  match c with
  | .num q => some q
  | .text s => parseSigned s
  | .empty => Option.none

/-- Errors `load_data` can raise. -/
inductive LoadErr where
  | schema (file : String) (needed : List String)
  | intCastingNaN
  | lossyCastToInt64
  | intParse (s : String)
deriving DecidableEq

/-- Truncation toward zero, the C-cast semantics of `numpy.astype(int)`
on a float value. -/
def ratTrunc (q : Rat) : Int :=
  if 0 ≤ q then ⌊q⌋ else ⌈q⌉

/-- `.astype("Int64")` on one float cell: `NaN` becomes `NA`, an integral
value is converted, a non-integral value raises (pandas refuses the
unsafe cast to a nullable integer). -/
def astypeInt64Cell (v : Option Rat) : Except LoadErr (Option Int) :=
  match v with
  | Option.none => .ok Option.none
  | some q => if q.den = 1 then .ok (some q.num) else .error .lossyCastToInt64

/-- `.astype(int)` on one float cell: `NaN` raises `IntCastingNaNError`,
otherwise the value is truncated toward zero. -/
def astypeIntCell (v : Option Rat) : Except LoadErr Int :=
  match v with
  | Option.none => .error .intCastingNaN
  | some q => .ok (ratTrunc q)

/-- `.astype(int)` on one raw cell of an object column (used for
`topic_words["topic"]`): Python `int()` semantics, failing on
non-integer strings and on `NaN`. -/
def cellToInt (c : Cell) : Except LoadErr Int :=
  match c with
  | .num q => .ok (ratTrunc q)
  | .text s =>
      match s.data with
      | '-' :: rest => if rest ≠ [] ∧ allDigits rest then .ok (-(natOfDigits rest : Int)) else .error (.intParse s)
      | l => if l ≠ [] ∧ allDigits l then .ok ((natOfDigits l : Int)) else .error (.intParse s)
  | .empty => .error .intCastingNaN

/-- One raw row of `shak_topicos_canciones.csv` as read by `read_csv`
(`song`/`nombre_topic` are strings, `dominant_prob` is already numeric
or missing, the coerced columns are raw cells). -/
structure RawARow where
  song : String
  year : Cell
  dominant_topic : Cell
  nombre_topic : String
  dominant_prob : Option Rat
  topic1 : Cell
  topic2 : Cell
  topic3 : Cell
  topic4 : Cell
  topic5 : Cell
deriving DecidableEq

/-- One typed assignment row, after the coercions of `load_data`. -/
structure ARow where
  song : String
  year : Option Int
  dominant_topic : Int
  nombre_topic : String
  dominant_prob : Option Rat
  topic1 : Option Rat
  topic2 : Option Rat
  topic3 : Option Rat
  topic4 : Option Rat
  topic5 : Option Rat
deriving DecidableEq

/-- Reassemble typed rows from the coerced `year` and `dominant_topic`
columns. -/
def zipRows : List RawARow → List (Option Int) → List Int → List ARow
  | r :: rs, y :: ys, d :: ds =>
      ⟨r.song, y, d, r.nombre_topic, r.dominant_prob,
        toNumeric r.topic1, toNumeric r.topic2, toNumeric r.topic3,
        toNumeric r.topic4, toNumeric r.topic5⟩ :: zipRows rs ys ds
  | _, _, _ => []

/-- The typing block of `load_data` for `topicos_canciones`
(src/app.py lines 56-59): `year` through `to_numeric(errors="coerce")`
then `.astype("Int64")`, `dominant_topic` through
`to_numeric(errors="coerce")` then `.astype(int)`, `Topic_1..5` through
`to_numeric(errors="coerce")`.  Columns are processed in source order,
so a column-level exception aborts the whole load. -/
def coerceAssignments (rows : List RawARow) : Except LoadErr (List ARow) := do
  let ys ← (rows.map (fun r => toNumeric r.year)).mapM astypeInt64Cell
  let ds ← (rows.map (fun r => toNumeric r.dominant_topic)).mapM astypeIntCell
  pure (zipRows rows ys ds)

/-- One raw row of `shakira_lda_topic_words.csv`. -/
structure RawTWRow where
  topic : Cell
  word : String
  weight : Cell
  rank : Cell
deriving DecidableEq

/-- One typed topic-word row after coercion. -/
structure TWRow where
  topic : Int
  word : String
  weight : Option Rat
  rank : Option Rat
deriving DecidableEq

/-- The typing block of `load_data` for `topic_words` (src/app.py
lines 52-54): `topic` through `.astype(int)`, `weight` and `rank`
through `to_numeric(errors="coerce")`. -/
def coerceTW (rows : List RawTWRow) : Except LoadErr (List TWRow) :=
  rows.mapM (fun r => do
    let t ← cellToInt r.topic
    pure (⟨t, r.word, toNumeric r.weight, toNumeric r.rank⟩ : TWRow))

/-- Required columns of `shakira_lda_topic_words.csv` (the Python set
literal, in source order). -/
def req_tw : List String := ["topic", "word", "weight", "rank"]

/-- `sorted(req_tw)`: the column list interpolated into the error
message. -/
def sorted_req_tw : List String := ["rank", "topic", "weight", "word"]

/-- Required columns of `shak_topicos_canciones.csv`. -/
def req_tc : List String :=
  ["song", "year", "dominant_topic", "nombre_topic", "dominant_prob",
   "Topic_1", "Topic_2", "Topic_3", "Topic_4", "Topic_5"]

/-- `sorted(req_tc)`. -/
def sorted_req_tc : List String :=
  ["Topic_1", "Topic_2", "Topic_3", "Topic_4", "Topic_5",
   "dominant_prob", "dominant_topic", "nombre_topic", "song", "year"]

/-- Required columns of `shak.xlsx`. -/
def req_shak : List String := ["song", "year", "lyrics"]

/-- `sorted(req_shak)`. -/
def sorted_req_shak : List String := ["lyrics", "song", "year"]

/-- One `if not req.issubset(df.columns): raise ValueError(...)` check.
The raised `ValueError` message interpolates the file name and
`sorted(req)`; the error value carries both. -/
def checkCols (file : String) (req sortedReq cols : List String) : Except LoadErr Unit :=
  if req.all (fun c => cols.contains c) then .ok () else .error (.schema file sortedReq)

/-- The raw input of `load_data`: the column-name sets of the three
sources and the raw rows of the two datasets the queries use. -/
structure RawInput where
  twCols : List String
  tcCols : List String
  shakCols : List String
  twRows : List RawTWRow
  tcRows : List RawARow

/-- The loaded state. -/
structure Loaded where
  topic_words : List TWRow
  topicos_canciones : List ARow

/-- `load_data` (src/app.py lines 32-76): the three schema checks in
source order, then the type coercions. -/
def load_data (inp : RawInput) : Except LoadErr Loaded := do
  checkCols "shakira_lda_topic_words.csv" req_tw sorted_req_tw inp.twCols
  checkCols "shak_topicos_canciones.csv" req_tc sorted_req_tc inp.tcCols
  checkCols "shak.xlsx" req_shak sorted_req_shak inp.shakCols
  let tw ← coerceTW inp.twRows
  let tc ← coerceAssignments inp.tcRows
  pure ⟨tw, tc⟩

/-! ### Query engine -/

/-- Errors a query expression can raise. -/
inductive PdErr where
  | keyError (col : String)
deriving DecidableEq

/-- `skipna` mean of the non-missing values of a group: pandas returns
`NaN` for a group with no non-missing value. -/
def meanOpt (l : List Rat) : Option Rat :=
  if l.isEmpty then Option.none else some (l.sum / (l.length : Rat))

/-- The `Topic_i` column accessor, `i` counted 1..5. -/
def topicVal (i : Nat) (r : ARow) : Option Rat :=
  match i with
  | 1 => r.topic1
  | 2 => r.topic2
  | 3 => r.topic3
  | 4 => r.topic4
  | 5 => r.topic5
  | _ => Option.none

/-- Column lookup `df[f"Topic_{int(t)}"]`: the column exists exactly for
`t` in 1..5; any other label raises `KeyError`. -/
def topicCol? (t : Int) : Option (ARow → Option Rat) :=
  if 1 ≤ t ∧ t ≤ 5 then some (topicVal t.toNat) else Option.none

/-- Rows of a year group. -/
def yearGroup (df : List ARow) (y : Int) : List ARow :=
  df.filter (fun r => r.year == some y)

/-- The group keys of `groupby("year", dropna=True)`: the distinct
non-null years, in ascending order (`sort=True`). -/
def groupKeys (df : List ARow) : List Int :=
  List.insertionSort (fun a b => a ≤ b) (df.filterMap ARow.year).dedup

/-- `df_topic_year` (src/app.py lines 185-189):
`topicos_canciones.groupby("year", dropna=True)[f"Topic_{t}"].mean()
.reset_index().sort_values("year")`. -/
def yearlyMeanForTopic (df : List ARow) (t : Int) : Except PdErr (List (Int × Option Rat)) :=
  match topicCol? t with
  | Option.none => .error (.keyError (String.append "Topic_" (toString t)))
  | some f =>
      .ok (List.insertionSort (fun a b => a.1 ≤ b.1)
        ((groupKeys df).map (fun y => (y, meanOpt ((yearGroup df y).filterMap f)))))

/-- `df_all` (src/app.py lines 201-205): the same grouping computed for
all five topic columns at once. -/
def yearlyMeanAllTopics (df : List ARow) : List (Int × List (Option Rat)) :=
  List.insertionSort (fun a b => a.1 ≤ b.1)
    ((groupKeys df).map (fun y =>
      (y, [1, 2, 3, 4, 5].map (fun i => meanOpt ((yearGroup df y).filterMap (topicVal i))))))

/-- Ascending-weight comparison used inside the descending weight sort
(missing weights are split off before the argsort). -/
def wle (a b : TWRow) : Prop :=
  a.weight.getD 0 ≤ b.weight.getD 0

instance : DecidableRel wle := fun a b =>
  inferInstanceAs (Decidable (a.weight.getD 0 ≤ b.weight.getD 0))

/-- `sort_values("weight", ascending=False)` through pandas `nargsort`:
NaN keys are appended last in original order; the non-NaN block is
reversed, arg-sorted ascending, and reversed again.  The underlying
argsort is modelled as stable (see the header note on quicksort). -/
def sortWeightDesc (l : List TWRow) : List TWRow :=
  (List.insertionSort wle (l.filter (fun r => r.weight.isSome)).reverse).reverse
    ++ l.filter (fun r => r.weight.isNone)

/-- `palabras` (src/app.py lines 161-163 and 106-108): filter the
topic-word rows by topic id, sort by weight descending, take the first
`n`, and keep the `word`/`weight` columns. -/
def palabras (tw : List TWRow) (t : Int) (n : Nat) : List (String × Option Rat) :=
  ((sortWeightDesc (tw.filter (fun r => r.topic == t))).take n).map
    (fun r => (r.word, r.weight))

/-- Strict ascending order on nullable years, nulls greatest
(`na_position="last"`). -/
def yearLT (y1 y2 : Option Int) : Prop :=
  match y1, y2 with
  | some a, some b => a < b
  | some _, Option.none => True
  | _, _ => False

instance : DecidableRel yearLT := fun y1 y2 =>
  match y1, y2 with
  | some a, some b => inferInstanceAs (Decidable (a < b))
  | some _, Option.none => inferInstanceAs (Decidable True)
  | Option.none, some _ => inferInstanceAs (Decidable False)
  | Option.none, Option.none => inferInstanceAs (Decidable False)

/-- Descending order on nullable probabilities, nulls last (the inverted
category codes of `lexsort_indexer` for an `ascending=False` column). -/
def probLE (p1 p2 : Option Rat) : Prop :=
  match p1, p2 with
  | some a, some b => b ≤ a
  | some _, Option.none => True
  | Option.none, some _ => False
  | Option.none, Option.none => True

instance : DecidableRel probLE := fun p1 p2 =>
  match p1, p2 with
  | some a, some b => inferInstanceAs (Decidable (b ≤ a))
  | some _, Option.none => inferInstanceAs (Decidable True)
  | Option.none, some _ => inferInstanceAs (Decidable False)
  | Option.none, Option.none => inferInstanceAs (Decidable True)

/-- The lexicographic key order of
`sort_values(["year","dominant_prob"], ascending=[True, False])`. -/
def keyLE (k1 k2 : Option Int × Option Rat) : Prop :=
  yearLT k1.1 k2.1 ∨ (k1.1 = k2.1 ∧ probLE k1.2 k2.2)

instance : DecidableRel keyLE := fun _ _ =>
  inferInstanceAs (Decidable (_ ∨ _ ∧ _))

/-- The same order on assignment rows. -/
def lexLE (r1 r2 : ARow) : Prop :=
  keyLE (r1.year, r1.dominant_prob) (r2.year, r2.dominant_prob)

instance : DecidableRel lexLE := fun _ _ =>
  inferInstanceAs (Decidable (keyLE _ _))

/-- The same order on the projected result triples. -/
def tripLE (t1 t2 : String × Option Int × Option Rat) : Prop :=
  keyLE (t1.2.1, t1.2.2) (t2.2.1, t2.2.2)

/-- `canciones_top` (src/app.py lines 178-180): filter the assignments
by dominant topic, sort by year ascending then probability descending
(`np.lexsort`, a stable sort with nulls last), and keep the
`song`/`year`/`dominant_prob` columns. -/
def songsDominatedBy (df : List ARow) (t : Int) : List (String × Option Int × Option Rat) :=
  (List.insertionSort lexLE (df.filter (fun r => r.dominant_topic == t))).map
    (fun r => (r.song, r.year, r.dominant_prob))

/-! ### Concrete sample data used by witnesses and counterexamples

Rational values in the samples are written without arithmetic (integer
literals) so that every query evaluates by kernel reduction. -/

/-- Read outcomes of a source whose UTF-8 attempt raises
`UnicodeDecodeError`, whose Latin-1 attempt raises a non-decode
exception (for instance a tokenizer error on the differently decoded
bytes), and whose cp1252 attempt parses fine. -/
def attemptCE : Enc → Except ReadErr Nat
  | .utf8 => .error .unicodeDecode
  | .latin1 => .error .other
  | .cp1252 => .ok 0

/-- An assignments row whose `dominant_topic` cell fails numeric coercion. -/
def rowBadDominant : RawARow :=
  ⟨"Loba", .num 2009, .text "abc", "Amor", some 1, .num 1, .num 0, .num 0, .num 0, .num 0⟩

/-- An assignments row whose `year` cell fails numeric coercion. -/
def rowBadYear : RawARow :=
  ⟨"Ciega", .text "s/f", .num 2, "Amor", some 1, .num 1, .num 0, .num 0, .num 0, .num 0⟩

/-- A small typed assignments frame. -/
def dfSample : List ARow :=
  [⟨"Hips", some 2005, 1, "Amor", some 3, some 3, some 1, some 1, some 0, some 0⟩,
   ⟨"Enero", some 2005, 2, "Nostalgia", some 2, some 0, some 2, some 1, some 1, some 0⟩,
   ⟨"Suerte", some 2001, 1, "Amor", some 4, some 4, some 0, some 0, some 1, some 0⟩]

/-- A typed assignments frame with a year tie decided by probability. -/
def df2Sample : List ARow :=
  [⟨"A", some 2005, 1, "Amor", some 3, some 3, some 1, some 1, some 0, some 0⟩,
   ⟨"B", Option.none, 1, "Amor", some 2, some 0, some 2, some 1, some 1, some 0⟩,
   ⟨"C", some 2005, 1, "Amor", some 9, some 0, some 2, some 1, some 1, some 0⟩]

/-- A typed assignments frame with two null-year rows. -/
def df3Sample : List ARow :=
  [⟨"A", some 2005, 1, "Amor", some 3, some 3, some 1, some 1, some 0, some 0⟩,
   ⟨"B", Option.none, 1, "Amor", some 2, some 0, some 2, some 1, some 1, some 0⟩,
   ⟨"C", Option.none, 1, "Amor", some 5, some 0, some 2, some 1, some 1, some 0⟩]

/-- A small typed topic-word frame (topics 1 and 2 only). -/
def twSample : List TWRow :=
  [⟨1, "amor", some 3, some 1⟩, ⟨1, "baila", some 2, some 2⟩, ⟨2, "enero", some 4, some 1⟩]

/-- A raw input whose topic-word dataset lacks the `rank` column. -/
def twNoRankInput : RawInput :=
  ⟨["topic", "word", "weight"], req_tc, req_shak, [], []⟩

/-! ## Theorems -/

/-- C3 (counterexample): the claimed property "an error is raised only
if all three decoding attempts fail" is false at a concrete input: on a
source whose UTF-8 attempt raises `UnicodeDecodeError` and whose Latin-1
attempt raises a non-decode exception, `leer_csv_seguro` propagates the
Latin-1 error even though the cp1252 attempt parses fine — the second
`except` clause of the single Python `try` cannot catch an exception
raised inside the first handler. -/
theorem leer_csv_seguro_error_despite_cp1252_ok :
    ¬ ∀ (attempt : Enc → Except ReadErr Nat),
        (∃ e, leer_csv_seguro attempt = .error e) →
          ∀ enc, ∃ e2, attempt enc = .error e2 := by
  intro h
  rcases h attemptCE ⟨.other, rfl⟩ .cp1252 with ⟨e2, he2⟩
  exact Except.noConfusion he2

/-- C3 (amended): UTF-8 is attempted first and its dataframe is returned
on success; on a `UnicodeDecodeError` the loader returns the Latin-1
attempt's outcome (cp1252 is never consulted, and a Latin-1 failure
propagates); on any other exception it returns the cp1252 attempt's
outcome (Latin-1 is never consulted). -/
theorem leer_csv_seguro_fallback {Df : Type} (attempt : Enc → Except ReadErr Df) :
    (∀ d, attempt .utf8 = .ok d → leer_csv_seguro attempt = .ok d) ∧
    (attempt .utf8 = .error .unicodeDecode → leer_csv_seguro attempt = attempt .latin1) ∧
    (attempt .utf8 = .error .other → leer_csv_seguro attempt = attempt .cp1252) := by
  unfold leer_csv_seguro
  refine ⟨fun d h => ?_, fun h => ?_, fun h => ?_⟩ <;> rw [h]

/-- C3 (witness): the amended behaviour at a concrete input. -/
theorem leer_csv_seguro_fallback_w :
    leer_csv_seguro attemptCE = attemptCE .latin1 :=
  (leer_csv_seguro_fallback attemptCE).2.1 rfl

/-- C4: at the failing input (a `dominant_topic` cell holding the
non-numeric string `"abc"`), the coercion block of `load_data` raises
`IntCastingNaNError` and aborts the load — `to_numeric(errors="coerce")`
turns the cell into `NaN`, and the chained `.astype(int)` cannot
represent it — whereas the claim says the cell should become null
without aborting.  A failing `year` cell (whose target is the nullable
`Int64`) does become null exactly as the claim describes. -/
theorem coerceAssignments_aborts_on_bad_dominant :
    coerceAssignments [rowBadDominant] = .error .intCastingNaN ∧
    coerceAssignments [rowBadYear] =
      .ok [⟨"Ciega", Option.none, 2, "Amor", some 1, some 1, some 0, some 0, some 0, some 0⟩] :=
  ⟨by decide, by decide⟩

/-- C5 (counterexample): the claimed property is false for the
yearly-mean query: at topic id 7 (outside 1..5) the query does not
yield an empty result set — the column label `Topic_7` does not exist
and the lookup raises `KeyError`. -/
theorem yearlyMean_raises_out_of_range :
    yearlyMeanForTopic dfSample 7 ≠ .ok [] ∧
    ∃ e, yearlyMeanForTopic dfSample 7 = .error e :=
  ⟨by decide, ⟨.keyError "Topic_7", by decide⟩⟩

/-- C5 (amended): a keyword query whose topic id is absent from the
topic-word dataset yields an empty result set without raising, but a
yearly-mean query whose topic id lies outside 1..5 raises a `KeyError`
for the missing `Topic_t` column instead of yielding an empty result. -/
theorem queries_out_of_range (tw : List TWRow) (t : Int) (n : Nat) (df : List ARow) :
    ((∀ r ∈ tw, r.topic ≠ t) → palabras tw t n = []) ∧
    (t < 1 ∨ 5 < t →
      yearlyMeanForTopic df t = .error (.keyError (String.append "Topic_" (toString t)))) := by
  constructor
  · intro h
    have hf : tw.filter (fun r => r.topic == t) = [] := by
      apply List.filter_eq_nil_iff.mpr
      intro r hr
      simpa using h r hr
    unfold palabras
    rw [hf]
    simp [sortWeightDesc]
  · intro h
    unfold yearlyMeanForTopic topicCol?
    rw [if_neg (by omega)]

/-- C5 (witness): the amended behaviour at concrete inputs. -/
theorem queries_out_of_range_w :
    palabras twSample 9 5 = [] ∧
    yearlyMeanForTopic dfSample 7 = .error (.keyError (String.append "Topic_" (toString (7 : Int)))) :=
  ⟨(queries_out_of_range twSample 9 5 dfSample).1 (by decide),
   (queries_out_of_range twSample 7 5 dfSample).2 (by omega)⟩

/-- A passing schema check. -/
theorem checkCols_ok (file : String) (req sortedReq cols : List String)
    (h : ∀ c ∈ req, c ∈ cols) : checkCols file req sortedReq cols = .ok () := by
  unfold checkCols
  rw [if_pos]
  apply List.all_eq_true.mpr
  intro c hc
  exact List.elem_eq_true_of_mem (h c hc)

/-- A failing schema check raises the `ValueError` carrying the file
name and the sorted required-column list. -/
theorem checkCols_error (file : String) (req sortedReq cols : List String)
    (h : ∃ c ∈ req, c ∉ cols) :
    checkCols file req sortedReq cols = .error (.schema file sortedReq) := by
  unfold checkCols
  rw [if_neg]
  intro hall
  rcases h with ⟨c, hc, hnc⟩
  exact hnc (List.mem_of_elem_eq_true (List.all_eq_true.mp hall c hc))

/-- C6: a dataset missing one or more required columns makes `load_data`
fail at its schema check, before any coercion, with a `SchemaError`
whose message carries the sorted required-column list of the failing
dataset; since every missing column is required, each missing column is
named in that message.  The checks run in source order (topic-words,
assignments, lyrics). -/
theorem load_data_schema_errors (inp : RawInput) :
    ((∃ c ∈ req_tw, c ∉ inp.twCols) →
      load_data inp = .error (.schema "shakira_lda_topic_words.csv" sorted_req_tw) ∧
      ∀ c ∈ req_tw, c ∈ sorted_req_tw) ∧
    ((∀ c ∈ req_tw, c ∈ inp.twCols) → (∃ c ∈ req_tc, c ∉ inp.tcCols) →
      load_data inp = .error (.schema "shak_topicos_canciones.csv" sorted_req_tc) ∧
      ∀ c ∈ req_tc, c ∈ sorted_req_tc) ∧
    ((∀ c ∈ req_tw, c ∈ inp.twCols) → (∀ c ∈ req_tc, c ∈ inp.tcCols) →
      (∃ c ∈ req_shak, c ∉ inp.shakCols) →
      load_data inp = .error (.schema "shak.xlsx" sorted_req_shak) ∧
      ∀ c ∈ req_shak, c ∈ sorted_req_shak) := by
  refine ⟨fun h => ⟨?_, by decide⟩, fun h1 h => ⟨?_, by decide⟩,
    fun h1 h2 h => ⟨?_, by decide⟩⟩
  · unfold load_data
    rw [checkCols_error _ _ _ _ h]
    rfl
  · unfold load_data
    rw [checkCols_ok _ _ _ _ h1, checkCols_error _ _ _ _ h]
    rfl
  · unfold load_data
    rw [checkCols_ok _ _ _ _ h1, checkCols_ok _ _ _ _ h2, checkCols_error _ _ _ _ h]
    rfl

/-- C6 (witness): loading a topic-word dataset without the `rank`
column fails with the `SchemaError`, and `rank` is named in it. -/
theorem load_data_schema_errors_w :
    load_data twNoRankInput = .error (.schema "shakira_lda_topic_words.csv" sorted_req_tw) ∧
    "rank" ∈ sorted_req_tw :=
  ⟨((load_data_schema_errors twNoRankInput).1 ⟨"rank", by decide, by decide⟩).1,
   ((load_data_schema_errors twNoRankInput).1 ⟨"rank", by decide, by decide⟩).2 "rank" (by decide)⟩

/-- Totality of the inverted-probability order. -/
theorem probLE_total : ∀ p1 p2 : Option Rat, probLE p1 p2 ∨ probLE p2 p1
  | some a, some b => (le_total b a).imp id id
  | some _, Option.none => Or.inl trivial
  | Option.none, some _ => Or.inr trivial
  | Option.none, Option.none => Or.inl trivial

/-- Transitivity of the inverted-probability order. -/
theorem probLE_trans : ∀ p1 p2 p3 : Option Rat, probLE p1 p2 → probLE p2 p3 → probLE p1 p3
  | some _, some _, some _ => fun h1 h2 => le_trans h2 h1
  | some _, some _, Option.none => fun _ _ => trivial
  | some _, Option.none, some _ => fun _ h2 => h2.elim
  | some _, Option.none, Option.none => fun _ _ => trivial
  | Option.none, some _, some _ => fun h1 _ => h1.elim
  | Option.none, some _, Option.none => fun h1 _ => h1.elim
  | Option.none, Option.none, some _ => fun _ h2 => h2.elim
  | Option.none, Option.none, Option.none => fun _ _ => trivial

/-- Transitivity of the strict nullable-year order. -/
theorem yearLT_trans : ∀ y1 y2 y3 : Option Int, yearLT y1 y2 → yearLT y2 y3 → yearLT y1 y3
  | some _, some _, some _ => fun h1 h2 => lt_trans h1 h2
  | some _, some _, Option.none => fun _ _ => trivial
  | some _, Option.none, some _ => fun _ h2 => h2.elim
  | some _, Option.none, Option.none => fun _ h2 => h2.elim
  | Option.none, some _, some _ => fun h1 _ => h1.elim
  | Option.none, some _, Option.none => fun h1 _ => h1.elim
  | Option.none, Option.none, some _ => fun h1 _ => h1.elim
  | Option.none, Option.none, Option.none => fun h1 _ => h1.elim

/-- Trichotomy of the strict nullable-year order. -/
theorem yearLT_trichotomy : ∀ y1 y2 : Option Int, yearLT y1 y2 ∨ y1 = y2 ∨ yearLT y2 y1
  | some a, some b => by
      rcases lt_trichotomy a b with h | h | h
      · exact Or.inl h
      · exact Or.inr (Or.inl (by rw [h]))
      · exact Or.inr (Or.inr h)
  | some _, Option.none => Or.inl trivial
  | Option.none, some _ => Or.inr (Or.inr trivial)
  | Option.none, Option.none => Or.inr (Or.inl rfl)

/-- Irreflexivity of the strict nullable-year order. -/
theorem yearLT_irrefl : ∀ y : Option Int, ¬ yearLT y y
  | some a => lt_irrefl a
  | Option.none => id

/-- Totality of the lexicographic sort key order. -/
theorem keyLE_total (k1 k2 : Option Int × Option Rat) : keyLE k1 k2 ∨ keyLE k2 k1 := by
  unfold keyLE
  rcases yearLT_trichotomy k1.1 k2.1 with h | h | h
  · exact Or.inl (Or.inl h)
  · rcases probLE_total k1.2 k2.2 with hp | hp
    · exact Or.inl (Or.inr ⟨h, hp⟩)
    · exact Or.inr (Or.inr ⟨h.symm, hp⟩)
  · exact Or.inr (Or.inl h)

/-- Transitivity of the lexicographic sort key order. -/
theorem keyLE_trans (k1 k2 k3 : Option Int × Option Rat)
    (h12 : keyLE k1 k2) (h23 : keyLE k2 k3) : keyLE k1 k3 := by
  unfold keyLE at h12 h23 ⊢
  rcases h12 with h12 | ⟨he12, hp12⟩
  · rcases h23 with h23 | ⟨he23, hp23⟩
    · exact Or.inl (yearLT_trans _ _ _ h12 h23)
    · exact Or.inl (by rw [← he23]; exact h12)
  · rcases h23 with h23 | ⟨he23, hp23⟩
    · exact Or.inl (by rw [he12]; exact h23)
    · exact Or.inr ⟨he12.trans he23, probLE_trans _ _ _ hp12 hp23⟩

/-- The output of `songsDominatedBy` is sorted for the lexicographic
order (year ascending nulls last, probability descending). -/
theorem sorted_songsDominatedBy (df : List ARow) (t : Int) :
    List.Sorted tripLE (songsDominatedBy df t) := by
  haveI : IsTotal ARow lexLE := ⟨fun _ _ => keyLE_total _ _⟩
  haveI : IsTrans ARow lexLE := ⟨fun _ _ _ => keyLE_trans _ _ _⟩
  unfold songsDominatedBy
  exact (List.sorted_insertionSort lexLE _).map _ (fun _ _ hab => hab)

/-- C7: `songsDominatedBy(t)` returns only rows whose dominant topic id
equals `t`, and for any two consecutive returned entries with equal year
the first probability is greater than or equal to the second. -/
theorem songsDominatedBy_spec (df : List ARow) (t : Int) :
    (∀ e ∈ songsDominatedBy df t,
      ∃ r ∈ df, r.dominant_topic = t ∧ e = (r.song, r.year, r.dominant_prob)) ∧
    (∀ i j : Fin (songsDominatedBy df t).length, (j : Nat) = (i : Nat) + 1 →
      ((songsDominatedBy df t).get i).2.1 = ((songsDominatedBy df t).get j).2.1 →
      ∀ p1 p2 : Rat, ((songsDominatedBy df t).get i).2.2 = some p1 →
        ((songsDominatedBy df t).get j).2.2 = some p2 → p2 ≤ p1) := by
  constructor
  · intro e he
    unfold songsDominatedBy at he
    rcases List.mem_map.mp he with ⟨r, hr, rfl⟩
    rw [List.mem_insertionSort] at hr
    rcases List.mem_filter.mp hr with ⟨hmem, hbeq⟩
    exact ⟨r, hmem, by simpa using hbeq, rfl⟩
  · intro i j hji hyear p1 p2 hp1 hp2
    have hij : i < j := by
      rw [Fin.lt_def]
      omega
    have hrel := (sorted_songsDominatedBy df t).rel_get_of_lt hij
    unfold tripLE keyLE at hrel
    rcases hrel with h | ⟨-, hp⟩
    · rw [hyear] at h
      exact absurd h (yearLT_irrefl _)
    · rw [hp1, hp2] at hp
      exact hp

set_option maxRecDepth 4000 in
/-- C7 (witness): at a frame with a year tie, the theorem gives the
probability comparison of two consecutive equal-year entries. -/
theorem songsDominatedBy_spec_w : (3 : Rat) ≤ 9 :=
  (songsDominatedBy_spec df2Sample 1).2 ⟨0, by decide⟩ ⟨1, by decide⟩ (by decide) (by decide)
    9 3 (by decide) (by decide)

/-- C10: in the output of `songsDominatedBy` every null-year entry is
placed after every non-null-year entry (nulls consistently last). -/
theorem songsDominatedBy_nulls_last (df : List ARow) (t : Int)
    (i j : Fin (songsDominatedBy df t).length) (hij : i ≤ j)
    (hi : ((songsDominatedBy df t).get i).2.1 = Option.none) :
    ((songsDominatedBy df t).get j).2.1 = Option.none := by
  rcases eq_or_lt_of_le hij with heq | hlt
  · rw [← heq]
    exact hi
  · have hrel := (sorted_songsDominatedBy df t).rel_get_of_lt hlt
    unfold tripLE keyLE at hrel
    rcases hrel with h | ⟨he, -⟩
    · rw [hi] at h
      cases hy : ((songsDominatedBy df t).get j).2.1 with
      | none => rfl
      | some v =>
          rw [hy] at h
          exact h.elim
    · rw [← he]
      exact hi

set_option maxRecDepth 4000 in
/-- C10 (witness): with two null-year rows, the entry following a
null-year entry is also null-year. -/
theorem songsDominatedBy_nulls_last_w :
    ((songsDominatedBy df3Sample 1).get ⟨2, by decide⟩).2.1 = Option.none :=
  songsDominatedBy_nulls_last df3Sample 1 ⟨1, by decide⟩ ⟨2, by decide⟩ (by decide) (by decide)

/-- The group keys of `groupby("year", dropna=True)` are sorted
ascending. -/
theorem sorted_groupKeys (df : List ARow) :
    List.Sorted (fun a b : Int => a ≤ b) (groupKeys df) :=
  List.sorted_insertionSort _ _

/-- The group keys are distinct. -/
theorem nodup_groupKeys (df : List ARow) : (groupKeys df).Nodup :=
  ((List.perm_insertionSort _ _).nodup_iff).mpr (List.nodup_dedup _)

/-- A year is a group key exactly when some row carries it. -/
theorem mem_groupKeys (df : List ARow) (y : Int) :
    y ∈ groupKeys df ↔ ∃ r ∈ df, r.year = some y := by
  unfold groupKeys
  rw [List.mem_insertionSort, List.mem_dedup, List.mem_filterMap]

/-- The trailing `sort_values("year")` of the single-topic pipeline is
the identity: the grouped frame is already sorted by its unique keys. -/
theorem yearlyMeanForTopic_eq (df : List ARow) (t : Int) (h1 : 1 ≤ t) (h2 : t ≤ 5) :
    yearlyMeanForTopic df t =
      .ok ((groupKeys df).map
        (fun y => (y, meanOpt ((yearGroup df y).filterMap (topicVal t.toNat))))) := by
  unfold yearlyMeanForTopic topicCol?
  rw [if_pos ⟨h1, h2⟩]
  refine congrArg Except.ok ?_
  apply List.Sorted.insertionSort_eq
  exact (sorted_groupKeys df).map _ (fun _ _ hab => hab)

/-- The trailing `sort_values("year")` of the all-topics pipeline is the
identity as well. -/
theorem yearlyMeanAllTopics_eq (df : List ARow) :
    yearlyMeanAllTopics df =
      (groupKeys df).map (fun y =>
        (y, [1, 2, 3, 4, 5].map (fun i => meanOpt ((yearGroup df y).filterMap (topicVal i))))) := by
  unfold yearlyMeanAllTopics
  apply List.Sorted.insertionSort_eq
  exact (sorted_groupKeys df).map _ (fun _ _ hab => hab)

/-- C1: for `t` in 1..5 the yearly mean series drops null-year rows,
contains exactly the years carried by some row, maps each year to the
arithmetic mean of the non-missing `Topic_t` cells of its rows (missing
cells excluded from the mean, with an empty mean reported as missing
rather than zero), and is sorted strictly ascending by year. -/
theorem yearlyMeanForTopic_spec (df : List ARow) (t : Int) (h1 : 1 ≤ t) (h2 : t ≤ 5) :
    ∃ res, yearlyMeanForTopic df t = .ok res ∧
      List.Sorted (fun a b : Int => a < b) (res.map Prod.fst) ∧
      (∀ y : Int, (∃ v, (y, v) ∈ res) ↔ ∃ r ∈ df, r.year = some y) ∧
      (∀ y v, (y, v) ∈ res →
        v = meanOpt ((yearGroup df y).filterMap (topicVal t.toNat))) := by
  refine ⟨_, yearlyMeanForTopic_eq df t h1 h2, ?_, ?_, ?_⟩
  · rw [List.map_map]
    have hid : (Prod.fst ∘ fun y : Int =>
        (y, meanOpt ((yearGroup df y).filterMap (topicVal t.toNat)))) = id := rfl
    rw [hid, List.map_id]
    exact (sorted_groupKeys df).lt_of_le (nodup_groupKeys df)
  · intro y
    constructor
    · rintro ⟨v, hv⟩
      rcases List.mem_map.mp hv with ⟨y', hy', heq⟩
      rw [Prod.mk.injEq] at heq
      obtain ⟨rfl, -⟩ := heq
      exact (mem_groupKeys df y').mp hy'
    · intro hr
      exact ⟨_, List.mem_map_of_mem _ ((mem_groupKeys df y).mpr hr)⟩
  · intro y v hv
    rcases List.mem_map.mp hv with ⟨y', hy', heq⟩
    rw [Prod.mk.injEq] at heq
    obtain ⟨rfl, hm⟩ := heq
    exact hm.symm

/-- C1 (witness): the characterization at a concrete frame and topic. -/
theorem yearlyMeanForTopic_spec_w :
    ∃ res, yearlyMeanForTopic dfSample 2 = .ok res ∧
      List.Sorted (fun a b : Int => a < b) (res.map Prod.fst) ∧
      (∀ y : Int, (∃ v, (y, v) ∈ res) ↔ ∃ r ∈ dfSample, r.year = some y) ∧
      (∀ y v, (y, v) ∈ res →
        v = meanOpt ((yearGroup dfSample y).filterMap (topicVal (2 : Int).toNat))) :=
  yearlyMeanForTopic_spec dfSample 2 (by decide) (by decide)

/-- C9: for `t` in 1..5 the single-topic yearly series equals the `t`-th
per-topic series of the all-topics aggregation — identical year buckets
and identical mean values. -/
theorem yearlyMeanForTopic_refines_all (df : List ARow) (t : Int) (h1 : 1 ≤ t) (h2 : t ≤ 5) :
    yearlyMeanForTopic df t =
      .ok ((yearlyMeanAllTopics df).map
        (fun p => (p.1, p.2.getD (t.toNat - 1) Option.none))) := by
  rw [yearlyMeanForTopic_eq df t h1 h2, yearlyMeanAllTopics_eq df, List.map_map]
  congr 1
  apply List.map_eq_map_iff.mpr
  intro y _
  have ht : t = 1 ∨ t = 2 ∨ t = 3 ∨ t = 4 ∨ t = 5 := by omega
  rcases ht with rfl | rfl | rfl | rfl | rfl <;> rfl

/-- C9 (witness): the refinement at a concrete frame and topic. -/
theorem yearlyMeanForTopic_refines_all_w :
    yearlyMeanForTopic dfSample 3 =
      .ok ((yearlyMeanAllTopics dfSample).map
        (fun p => (p.1, p.2.getD ((3 : Int).toNat - 1) Option.none))) :=
  yearlyMeanForTopic_refines_all dfSample 3 (by decide) (by decide)

/-- C8 (counterexample): `normalizar` is not idempotent on all strings:
NFKD decomposes `℉` (U+2109) into `°F`, and the produced `F` is
lowercased only by a second application (lowercasing precedes
decomposition inside one application). -/
theorem normalizar_not_idempotent :
    normalizar (normalizar (.str [0x2109])) ≠ normalizar (.str [0x2109]) := by decide

/-- Below 128 the lowering table is single-valued. -/
theorem pyLowerChar_ascii {c : Nat} (h : c < 128) : pyLowerChar c = [lowAsc c] := by
  unfold pyLowerChar lowAsc
  split_ifs with h1 h2
  · rfl
  · exact absurd h2 (by omega)
  · rfl

/-- ASCII lowering stays in ASCII. -/
theorem lowAsc_lt {c : Nat} (h : c < 128) : lowAsc c < 128 := by
  unfold lowAsc
  split_ifs <;> omega

/-- ASCII lowering is idempotent. -/
theorem lowAsc_idem (c : Nat) : lowAsc (lowAsc c) = lowAsc c := by
  unfold lowAsc
  split_ifs <;> omega

/-- ASCII lowering does not move code points into or out of the
whitespace set. -/
theorem isPySpace_lowAsc (c : Nat) : isPySpace (lowAsc c) = isPySpace c := by
  unfold lowAsc
  split_ifs with hA
  · unfold isPySpace
    apply decide_eq_decide.mpr
    omega
  · rfl

/-- NFKD is the identity on ASCII. -/
theorem nfkdChar_ascii {c : Nat} (h : c < 128) : nfkdChar c = [c] := by
  unfold nfkdChar
  split_ifs with h1 h2 h3 h4
  · exact absurd h1 (by omega)
  · exact absurd h2 (by omega)
  · exact absurd h3 (by omega)
  · exact absurd h4 (by omega)
  · rfl

/-- ASCII code points have combining class 0. -/
theorem combiningCls_ascii {c : Nat} (h : c < 128) : combiningCls c = 0 := by
  unfold combiningCls
  split_ifs with h1
  · exact absurd h1 (by omega)
  · rfl

/-- A flat map of singleton images is a map. -/
theorem flatMap_singleton_congr {s : List Nat} {F : Nat → List Nat} {G : Nat → Nat}
    (h : ∀ c ∈ s, F c = [G c]) : s.flatMap F = s.map G := by
  induction s with
  | nil => rfl
  | cons a l ih =>
      rw [List.flatMap_cons, List.map_cons, h a (List.mem_cons_self a l),
        ih (fun c hc => h c (List.mem_cons_of_mem a hc)), List.singleton_append]

/-- NFKD leaves an ASCII string unchanged. -/
theorem flatMap_nfkd_ascii {s : List Nat} (h : ∀ c ∈ s, c < 128) :
    s.flatMap nfkdChar = s := by
  rw [@flatMap_singleton_congr s nfkdChar (fun c => c) (fun c hc => nfkdChar_ascii (h c hc))]
  exact List.map_id' s

/-- Lowercasing an ASCII string is a plain map. -/
theorem flatMap_lower_ascii {s : List Nat} (h : ∀ c ∈ s, c < 128) :
    s.flatMap pyLowerChar = s.map lowAsc :=
  flatMap_singleton_congr (fun c hc => pyLowerChar_ascii (h c hc))

/-- Dropping combining marks leaves an ASCII string unchanged. -/
theorem filter_combining_ascii {s : List Nat} (h : ∀ c ∈ s, c < 128) :
    s.filter (fun c => decide (combiningCls c = 0)) = s :=
  List.filter_eq_self.mpr (fun c hc => by simp [combiningCls_ascii (h c hc)])

/-- `dropWhile` commutes with a map that preserves the predicate. -/
theorem dropWhile_map_of (p : Nat → Bool) (f : Nat → Nat) :
    ∀ s : List Nat, (∀ c ∈ s, p (f c) = p c) →
      (s.map f).dropWhile p = (s.dropWhile p).map f := by
  intro s
  induction s with
  | nil => intro _; rfl
  | cons a l ih =>
      intro h
      rw [List.map_cons, List.dropWhile_cons, List.dropWhile_cons, h a (List.mem_cons_self a l)]
      by_cases hp : p a = true
      · rw [if_pos hp, if_pos hp, ih (fun c hc => h c (List.mem_cons_of_mem a hc))]
      · rw [if_neg hp, if_neg hp, List.map_cons]

/-- The head of a `dropWhile` residue fails the predicate. -/
theorem dropWhile_head?_not (p : Nat → Bool) :
    ∀ (l : List Nat) (c : Nat), (l.dropWhile p).head? = some c → p c = false := by
  intro l
  induction l with
  | nil =>
      intro c hc
      simp at hc
  | cons a t ih =>
      intro c hc
      rw [List.dropWhile_cons] at hc
      by_cases hp : p a = true
      · rw [if_pos hp] at hc
        exact ih c hc
      · rw [if_neg hp] at hc
        have hac : a = c := by simpa using hc
        subst hac
        simpa using hp

/-- A nonempty `dropWhile` residue keeps the last element. -/
theorem dropWhile_getLast?_of_ne_nil (p : Nat → Bool) :
    ∀ l : List Nat, l.dropWhile p ≠ [] → (l.dropWhile p).getLast? = l.getLast? := by
  intro l
  induction l with
  | nil => intro h; exact absurd rfl h
  | cons a t ih =>
      intro h
      rw [List.dropWhile_cons] at h ⊢
      by_cases hp : p a = true
      · rw [if_pos hp] at h ⊢
        rw [ih h]
        have ht : t ≠ [] := by
          intro hte
          rw [hte] at h
          exact h rfl
        cases t with
        | nil => exact absurd rfl ht
        | cons b u => exact List.getLast?_cons_cons.symm
      · rw [if_neg hp]

/-- A list whose first and last elements are not whitespace is fixed by
`pyStrip`. -/
theorem pyStrip_fixed {l : List Nat}
    (hh : ∀ c, l.head? = some c → isPySpace c = false)
    (hl : ∀ c, l.getLast? = some c → isPySpace c = false) : pyStrip l = l := by
  unfold pyStrip
  have h1 : l.dropWhile isPySpace = l := by
    cases l with
    | nil => rfl
    | cons a t =>
        rw [List.dropWhile_cons, if_neg]
        rw [hh a rfl]
        exact Bool.false_ne_true
  rw [h1]
  have h2 : l.reverse.dropWhile isPySpace = l.reverse := by
    cases hr : l.reverse with
    | nil => rfl
    | cons b u =>
        rw [List.dropWhile_cons, if_neg]
        have hb : l.getLast? = some b := by
          rw [← List.head?_reverse, hr]
          rfl
        rw [hl b hb]
        exact Bool.false_ne_true
  rw [h2, List.reverse_reverse]

/-- The head of a stripped string is not whitespace. -/
theorem pyStrip_head?_not (l : List Nat) (c : Nat)
    (h : (pyStrip l).head? = some c) : isPySpace c = false := by
  unfold pyStrip at h
  rw [List.head?_reverse] at h
  have hne : (l.dropWhile isPySpace).reverse.dropWhile isPySpace ≠ [] := by
    intro he
    rw [he] at h
    simp at h
  rw [dropWhile_getLast?_of_ne_nil _ _ hne, List.getLast?_reverse] at h
  exact dropWhile_head?_not _ _ _ h

/-- The last element of a stripped string is not whitespace. -/
theorem pyStrip_getLast?_not (l : List Nat) (c : Nat)
    (h : (pyStrip l).getLast? = some c) : isPySpace c = false := by
  unfold pyStrip at h
  rw [List.getLast?_reverse] at h
  exact dropWhile_head?_not _ _ _ h

/-- Stripping is idempotent. -/
theorem pyStrip_idem (l : List Nat) : pyStrip (pyStrip l) = pyStrip l :=
  pyStrip_fixed (pyStrip_head?_not l) (pyStrip_getLast?_not l)

/-- Stripping only removes elements. -/
theorem pyStrip_subset {l : List Nat} {c : Nat} (h : c ∈ pyStrip l) : c ∈ l := by
  unfold pyStrip at h
  rw [List.mem_reverse] at h
  have h1 : c ∈ (l.dropWhile isPySpace).reverse := (List.dropWhile_sublist _).subset h
  rw [List.mem_reverse] at h1
  exact (List.dropWhile_sublist _).subset h1

/-- Stripping commutes with ASCII lowering. -/
theorem pyStrip_map_lowAsc (l : List Nat) :
    pyStrip (l.map lowAsc) = (pyStrip l).map lowAsc := by
  unfold pyStrip
  rw [dropWhile_map_of _ _ l (fun c _ => isPySpace_lowAsc c),
    ← List.map_reverse,
    dropWhile_map_of _ _ _ (fun c _ => isPySpace_lowAsc c),
    ← List.map_reverse]

/-- On an ASCII string `normalizar` is strip-then-lower. -/
theorem normalizar_ascii_form {s : List Nat} (h : ∀ c ∈ s, c < 128) :
    normalizar (.str s) = .str ((pyStrip s).map lowAsc) := by
  simp only [normalizar]
  congr 1
  have hstrip : ∀ c ∈ pyStrip s, c < 128 := fun c hc => h c (pyStrip_subset hc)
  rw [flatMap_lower_ascii hstrip]
  have hmap : ∀ c ∈ (pyStrip s).map lowAsc, c < 128 := by
    intro c hc
    rcases List.mem_map.mp hc with ⟨d, hd, rfl⟩
    exact lowAsc_lt (hstrip d hd)
  rw [flatMap_nfkd_ascii hmap, filter_combining_ascii hmap]

/-- C8 (amended): `normalizar` is total — any non-string value passes
through unchanged — and it is idempotent on ASCII strings; it is not
idempotent on arbitrary strings (compatibility decomposition can emit
cased characters after the lowercasing step, see the counterexample). -/
theorem normalizar_passthrough_ascii_idem :
    (∀ v : PyVal, (∀ s, v ≠ PyVal.str s) → normalizar v = v) ∧
    (∀ s : List Nat, (∀ c ∈ s, c < 128) →
      normalizar (normalizar (.str s)) = normalizar (.str s)) := by
  constructor
  · intro v hv
    cases v with
    | str s => exact absurd rfl (hv s)
    | int n => rfl
    | float q => rfl
    | pyNone => rfl
  · intro s hs
    have hstrip : ∀ c ∈ pyStrip s, c < 128 := fun c hc => hs c (pyStrip_subset hc)
    have hmap : ∀ c ∈ (pyStrip s).map lowAsc, c < 128 := by
      intro c hc
      rcases List.mem_map.mp hc with ⟨d, hd, rfl⟩
      exact lowAsc_lt (hstrip d hd)
    rw [normalizar_ascii_form hs, normalizar_ascii_form hmap]
    congr 1
    rw [pyStrip_map_lowAsc, pyStrip_idem, List.map_map]
    apply List.map_eq_map_iff.mpr
    intro c _
    exact lowAsc_idem c

/-- C8 (witness): passthrough at an integer value and idempotence at a
concrete ASCII title. -/
theorem normalizar_passthrough_ascii_idem_w :
    normalizar (.int 3) = .int 3 ∧
    normalizar (normalizar (.str [32, 72, 79, 76, 65, 32])) =
      normalizar (.str [32, 72, 79, 76, 65, 32]) :=
  ⟨normalizar_passthrough_ascii_idem.1 (.int 3) (fun _ h => PyVal.noConfusion h),
   normalizar_passthrough_ascii_idem.2 _ (by decide)⟩

end LDA
